import Mathlib

/-!
# State migration of the `azuread_application` resource, schema version 0 to 1

A shallow embedding of
`internal/services/applications/migrations/application_resource.go`:

* `Value` stands for Go's `interface{}` as it occurs in a raw state record;
* `RawState` stands for `map[string]interface{}`: a finite map with unique
  string keys, compared by lookup (a nil map reads like the empty map, and the
  function below never reaches a write when it is given one);
* `ResourceApplicationInstanceStateUpgradeV0` is the upgrade function. The Go
  function mutates the map it is given and returns that same map, and it can
  abort in a run-time panic, so the embedding returns both how the call ended
  and the content of the caller's map when it ended;
* `ResourceApplicationInstanceResourceV0` is the version 0 schema, as data.
-/

namespace Migrations

/-! ## Raw state records -/

/-- Dynamic values held by a raw state record (`interface{}` in Go). `null` is
the nil interface; `strs` is a value of Go type `[]string`, which is a different
dynamic type from a `[]interface{}` (`list`); `obj` is a nested
`map[string]interface{}`, kept as its list of entries. Numbers are kept as
integers: the migration never looks inside one. -/
inductive Value where
  | null : Value
  | str (s : String) : Value
  | bool (b : Bool) : Value
  | num (n : Int) : Value
  | strs (xs : List String) : Value
  | list (xs : List Value) : Value
  | obj (fields : List (String × Value)) : Value

/-- Raw state record: `map[string]interface{}`. -/
abbrev RawState := Finmap (fun _ : String => Value)

/-- Go's `v, ok := m[k]`: the stored value and `true`, or nil (the zero value
of `interface{}`) and `false` when the key is absent. -/
def RawState.index2 (m : RawState) (k : String) : Value × Bool :=
  match m.lookup k with
  | some v => (v, true)
  | none => (Value.null, false)

/-- Go's `m[k]` in its one-result form: the first component of `index2`. -/
def RawState.index (m : RawState) (k : String) : Value :=
  (RawState.index2 m k).1

/-- Go's `v == nil` on an `interface{}`. -/
def Value.isNil : Value → Bool
  | Value.null => true
  | _ => false

/-- Go's `v.(string)` in its one-result form: the string held by `v`, and no
result (a run-time panic) for every other dynamic type, nil included. -/
def Value.assertString : Value → Option String
  | Value.str s => some s
  | _ => none

/-- How a call of the upgrade function ends: it returns its two results (the
map and the error, `none` being a nil error), or it panics. -/
inductive Outcome where
  | returned (state : RawState) (err : Option String) : Outcome
  | panicked : Outcome

/-- Result of running the upgrade function on the caller's map: how the call
ended, and the content of the caller's map at that moment (the function writes
to the map in place). -/
structure Run where
  outcome : Outcome
  rawState : RawState

/-- The body of `ResourceApplicationInstanceStateUpgradeV0`, statement by
statement (the two `log.Println` calls write to the log only). -/
def ResourceApplicationInstanceStateUpgradeV0 (rawState : RawState) : Run :=
  -- groupMembershipClaimsOld := rawState["group_membership_claims"].(string)
  match (RawState.index rawState "group_membership_claims").assertString with
  | none => { outcome := Outcome.panicked, rawState := rawState }
  | some groupMembershipClaimsOld =>
    -- rawState["group_membership_claims"] = []string{groupMembershipClaimsOld}
    let rawState1 := rawState.insert "group_membership_claims" (Value.strs [groupMembershipClaimsOld])
    -- if v, ok := rawState["fallback_public_client_enabled"]; !ok || v == nil {
    --     rawState["fallback_public_client_enabled"] = rawState["public_client"] }
    let vok := RawState.index2 rawState1 "fallback_public_client_enabled"
    let rawState2 :=
      if !vok.2 || vok.1.isNil then
        rawState1.insert "fallback_public_client_enabled" (RawState.index rawState1 "public_client")
      else rawState1
    -- delete(rawState, "public_client")
    let rawState3 := rawState2.erase "public_client"
    -- return rawState, nil
    { outcome := Outcome.returned rawState3 none, rawState := rawState3 }

/-- The record handed back by a call that succeeded: it returned, with a nil
error. A call that panicked, or returned an error, has no output. -/
def Run.output (r : Run) : Option RawState :=
  match r.outcome with
  | Outcome.returned state none => some state
  | _ => none

/-- A record literal, from its entries. -/
def record (entries : List (String × Value)) : RawState :=
  entries.foldr (fun e m => m.insert e.1 e.2) ∅

/-! ## The two rules of the upgrade, each on its own -/

/-- The wrap rule, lines 552-553 taken as a function on records: the type
assertion on `group_membership_claims`, then the write of the one-element
`[]string`. No result stands for the panic of the assertion. -/
def wrapRule (rawState : RawState) : Option RawState :=
  -- groupMembershipClaimsOld := rawState["group_membership_claims"].(string)
  match (RawState.index rawState "group_membership_claims").assertString with
  | none => none
  | some groupMembershipClaimsOld =>
    -- rawState["group_membership_claims"] = []string{groupMembershipClaimsOld}
    some (rawState.insert "group_membership_claims" (Value.strs [groupMembershipClaimsOld]))

/-- The rename-and-delete rule, lines 556-559 taken as a function on records:
the guarded copy of `public_client` to `fallback_public_client_enabled`, then
the deletion of `public_client`. It has no statement that can fail. -/
def renameRule (rawState : RawState) : RawState :=
  -- if v, ok := rawState["fallback_public_client_enabled"]; !ok || v == nil {
  --     rawState["fallback_public_client_enabled"] = rawState["public_client"] }
  let vok := RawState.index2 rawState "fallback_public_client_enabled"
  let rawState2 :=
    if !vok.2 || vok.1.isNil then
      rawState.insert "fallback_public_client_enabled" (RawState.index rawState "public_client")
    else rawState
  -- delete(rawState, "public_client")
  rawState2.erase "public_client"

/-- The two rules in the order of the source: wrap, then rename and delete. -/
def wrapThenRename (rawState : RawState) : Option RawState :=
  (wrapRule rawState).map renameRule

/-- The two rules in the other order: rename and delete, then wrap. -/
def renameThenWrap (rawState : RawState) : Option RawState :=
  wrapRule (renameRule rawState)

/-! ## The version 0 schema -/

/-- The value types of `pluginsdk` that the schema uses. -/
inductive ValueType where
  | TypeBool : ValueType
  | TypeString : ValueType
  | TypeList : ValueType
  | TypeSet : ValueType
  deriving DecidableEq, Repr

/-- The fields of a `pluginsdk.Schema` literal other than `Elem`, each with Go's
zero value as its default. The validation functions (`ValidateFunc`,
`ValidateDiagFunc`), `Default` and `ConfigMode` are left out: they belong to
packages outside this file and the migration reads none of them. -/
structure SchemaAttrs where
  Type_ : ValueType
  Optional : Bool := false
  Required : Bool := false
  Computed : Bool := false
  Deprecated : String := ""
  ConflictsWith : List String := []
  ExactlyOneOf : List String := []
  MaxItems : Nat := 0
  MinItems : Nat := 0
  deriving DecidableEq, Repr

/-- One `pluginsdk.Schema` literal, by what its `Elem` holds: nothing
(`scalar`), a `*pluginsdk.Schema` (`elemSchema`) or a `*pluginsdk.Resource`,
given by the entries of its `Schema` map in the order of the source
(`elemResource`). -/
inductive Schema where
  | scalar (attrs : SchemaAttrs) : Schema
  | elemSchema (attrs : SchemaAttrs) (elem : Schema) : Schema
  | elemResource (attrs : SchemaAttrs) (elem : List (String × Schema)) : Schema

/-- The fields of a schema literal other than `Elem`. -/
def Schema.attrs : Schema → SchemaAttrs
  | Schema.scalar a => a
  | Schema.elemSchema a _ => a
  | Schema.elemResource a _ => a

/-- The `Schema` map of the resource returned by
`ResourceApplicationInstanceResourceV0`, entry by entry. -/
def ResourceApplicationInstanceResourceV0 : List (String × Schema) :=
  [
    ("display_name", Schema.scalar { Type_ := ValueType.TypeString, Optional := true, Computed := true, ExactlyOneOf := ["display_name", "name"] }),
    ("name", Schema.scalar { Type_ := ValueType.TypeString, Optional := true, Computed := true, Deprecated := "This property has been renamed to `display_name` and will be removed in version 2.0 of the AzureAD provider", ExactlyOneOf := ["display_name", "name"] }),
    ("api", Schema.elemResource { Type_ := ValueType.TypeList, Optional := true, Computed := true, MaxItems := 1 }
      [
        ("oauth2_permission_scope", Schema.elemResource { Type_ := ValueType.TypeSet, Optional := true }
          [
            ("id", Schema.scalar { Type_ := ValueType.TypeString, Required := true }),
            ("admin_consent_description", Schema.scalar { Type_ := ValueType.TypeString, Optional := true }),
            ("admin_consent_display_name", Schema.scalar { Type_ := ValueType.TypeString, Optional := true }),
            ("enabled", Schema.scalar { Type_ := ValueType.TypeBool, Optional := true }),
            ("type", Schema.scalar { Type_ := ValueType.TypeString, Optional := true }),
            ("user_consent_description", Schema.scalar { Type_ := ValueType.TypeString, Optional := true }),
            ("user_consent_display_name", Schema.scalar { Type_ := ValueType.TypeString, Optional := true }),
            ("value", Schema.scalar { Type_ := ValueType.TypeString, Optional := true })
          ])
      ]),
    ("app_role", Schema.elemResource { Type_ := ValueType.TypeSet, Optional := true, Computed := true }
      [
        ("id", Schema.scalar { Type_ := ValueType.TypeString, Computed := true }),
        ("allowed_member_types", Schema.elemSchema { Type_ := ValueType.TypeSet, Required := true, MinItems := 1 }
          (Schema.scalar { Type_ := ValueType.TypeString })),
        ("description", Schema.scalar { Type_ := ValueType.TypeString, Required := true }),
        ("display_name", Schema.scalar { Type_ := ValueType.TypeString, Required := true }),
        ("enabled", Schema.scalar { Type_ := ValueType.TypeBool, Optional := true }),
        ("is_enabled", Schema.scalar { Type_ := ValueType.TypeBool, Optional := true, Deprecated := "[NOTE] This attribute has been renamed to `enabled` and will be removed in version 2.0 of the AzureAD provider" }),
        ("value", Schema.scalar { Type_ := ValueType.TypeString, Optional := true, Computed := true })
      ]),
    ("available_to_other_tenants", Schema.scalar { Type_ := ValueType.TypeBool, Optional := true, Computed := true, ConflictsWith := ["sign_in_audience"], Deprecated := "[NOTE] This attribute will be replaced by a new property `sign_in_audience` in version 2.0 of the AzureAD provider" }),
    ("fallback_public_client_enabled", Schema.scalar { Type_ := ValueType.TypeBool, Optional := true, Computed := true, ConflictsWith := ["public_client"] }),
    ("group_membership_claims", Schema.scalar { Type_ := ValueType.TypeString, Optional := true, Deprecated := "[NOTE] This attribute will become a list in version 2.0 of the AzureAD provider" }),
    ("homepage", Schema.scalar { Type_ := ValueType.TypeString, Optional := true, Computed := true, ConflictsWith := ["web.0.homepage_url"], Deprecated := "[NOTE] This attribute will be replaced by a new attribute `homepage_url` in the `web` block in version 2.0 of the AzureAD provider" }),
    ("identifier_uris", Schema.elemSchema { Type_ := ValueType.TypeList, Optional := true, Computed := true }
      (Schema.scalar { Type_ := ValueType.TypeString })),
    ("logout_url", Schema.scalar { Type_ := ValueType.TypeString, Optional := true, Computed := true, ConflictsWith := ["web.0.logout_url"], Deprecated := "[NOTE] This attribute will be moved into the `web` block in version 2.0 of the AzureAD provider" }),
    ("oauth2_allow_implicit_flow", Schema.scalar { Type_ := ValueType.TypeBool, Optional := true, Computed := true, ConflictsWith := ["web.0.implicit_grant.0.access_token_issuance_enabled"], Deprecated := "[NOTE] This attribute will be moved to the `implicit_grant` block and renamed to `access_token_issuance_enabled` in version 2.0 of the AzureAD provider" }),
    ("oauth2_permissions", Schema.elemResource { Type_ := ValueType.TypeSet, Optional := true, Computed := true, Deprecated := "[NOTE] The `oauth2_permissions` block has been renamed to `oauth2_permission_scope` and moved to the `api` block. `oauth2_permissions` will be removed in version 2.0 of the AzureAD provider." }
      [
        ("id", Schema.scalar { Type_ := ValueType.TypeString, Computed := true }),
        ("admin_consent_description", Schema.scalar { Type_ := ValueType.TypeString, Optional := true, Computed := true }),
        ("admin_consent_display_name", Schema.scalar { Type_ := ValueType.TypeString, Optional := true, Computed := true }),
        ("is_enabled", Schema.scalar { Type_ := ValueType.TypeBool, Optional := true, Computed := true }),
        ("type", Schema.scalar { Type_ := ValueType.TypeString, Optional := true, Computed := true }),
        ("user_consent_description", Schema.scalar { Type_ := ValueType.TypeString, Optional := true, Computed := true }),
        ("user_consent_display_name", Schema.scalar { Type_ := ValueType.TypeString, Optional := true, Computed := true }),
        ("value", Schema.scalar { Type_ := ValueType.TypeString, Optional := true, Computed := true })
      ]),
    ("optional_claims", Schema.elemResource { Type_ := ValueType.TypeList, Optional := true, MaxItems := 1 }
      [
        ("access_token", Schema.elemResource { Type_ := ValueType.TypeList, Optional := true }
          [
            ("name", Schema.scalar { Type_ := ValueType.TypeString, Required := true }),
            ("source", Schema.scalar { Type_ := ValueType.TypeString, Optional := true }),
            ("essential", Schema.scalar { Type_ := ValueType.TypeBool, Optional := true }),
            ("additional_properties", Schema.elemSchema { Type_ := ValueType.TypeList, Optional := true }
              (Schema.scalar { Type_ := ValueType.TypeString }))
          ]),
        ("id_token", Schema.elemResource { Type_ := ValueType.TypeList, Optional := true }
          [
            ("name", Schema.scalar { Type_ := ValueType.TypeString, Required := true }),
            ("source", Schema.scalar { Type_ := ValueType.TypeString, Optional := true }),
            ("essential", Schema.scalar { Type_ := ValueType.TypeBool, Optional := true }),
            ("additional_properties", Schema.elemSchema { Type_ := ValueType.TypeList, Optional := true }
              (Schema.scalar { Type_ := ValueType.TypeString }))
          ])
      ]),
    ("owners", Schema.elemSchema { Type_ := ValueType.TypeSet, Optional := true, Computed := true }
      (Schema.scalar { Type_ := ValueType.TypeString })),
    ("public_client", Schema.scalar { Type_ := ValueType.TypeBool, Optional := true, Computed := true, ConflictsWith := ["fallback_public_client_enabled"], Deprecated := "[NOTE] This legacy attribute will be renamed to `fallback_public_client_enabled` in version 2.0 of the AzureAD provider" }),
    ("reply_urls", Schema.elemSchema { Type_ := ValueType.TypeSet, Optional := true, Computed := true, ConflictsWith := ["web.0.redirect_uris"], Deprecated := "[NOTE] This attribute will be replaced by a new attribute `redirect_uris` in the `web` block in version 2.0 of the AzureAD provider" }
      (Schema.scalar { Type_ := ValueType.TypeString })),
    ("required_resource_access", Schema.elemResource { Type_ := ValueType.TypeSet, Optional := true }
      [
        ("resource_app_id", Schema.scalar { Type_ := ValueType.TypeString, Required := true }),
        ("resource_access", Schema.elemResource { Type_ := ValueType.TypeList, Required := true }
          [
            ("id", Schema.scalar { Type_ := ValueType.TypeString, Required := true }),
            ("type", Schema.scalar { Type_ := ValueType.TypeString, Required := true })
          ])
      ]),
    ("sign_in_audience", Schema.scalar { Type_ := ValueType.TypeString, Optional := true, Computed := true, ConflictsWith := ["available_to_other_tenants"] }),
    ("type", Schema.scalar { Type_ := ValueType.TypeString, Optional := true, Deprecated := "[NOTE] This legacy property is deprecated and will be removed in version 2.0 of the AzureAD provider" }),
    ("web", Schema.elemResource { Type_ := ValueType.TypeList, Optional := true, Computed := true, MaxItems := 1 }
      [
        ("homepage_url", Schema.scalar { Type_ := ValueType.TypeString, Optional := true, ConflictsWith := ["homepage"] }),
        ("logout_url", Schema.scalar { Type_ := ValueType.TypeString, Optional := true, ConflictsWith := ["logout_url"] }),
        ("redirect_uris", Schema.elemSchema { Type_ := ValueType.TypeSet, Optional := true, ConflictsWith := ["reply_urls"] }
          (Schema.scalar { Type_ := ValueType.TypeString })),
        ("implicit_grant", Schema.elemResource { Type_ := ValueType.TypeList, Optional := true, MaxItems := 1 }
          [
            ("access_token_issuance_enabled", Schema.scalar { Type_ := ValueType.TypeBool, Optional := true, ConflictsWith := ["oauth2_allow_implicit_flow"] })
          ])
      ]),
    ("application_id", Schema.scalar { Type_ := ValueType.TypeString, Computed := true }),
    ("object_id", Schema.scalar { Type_ := ValueType.TypeString, Computed := true }),
    ("prevent_duplicate_names", Schema.scalar { Type_ := ValueType.TypeBool, Optional := true })
  ]

/-- Whether the schema marks a field as deprecated: its `Deprecated` message is
set. -/
def Schema.isDeprecated (s : Schema) : Bool :=
  s.attrs.Deprecated != ""

/-- The top-level keys that the version 0 schema marks `Deprecated`. -/
def deprecatedKeys : List String :=
  (ResourceApplicationInstanceResourceV0.filter (fun e => e.2.isDeprecated)).map (fun e => e.1)

/-! ## Addresses of the declared fields -/

/-- The address under which the fields of a nested block are reached, given the
address of the field that holds the block: a `TypeList` block is entered through
its index, here `0`; the items of a `TypeSet` are not reached through an index,
so the fields below one have no such address. -/
def childBase (a : SchemaAttrs) (addr : Option String) : Option String :=
  if a.Type_ = ValueType.TypeList then addr.map (fun p => p ++ ".0.") else none

mutual
/-- Every field declared at or below a schema literal, each with its address
from the root of the resource (when it has one) and its own fields. The element
declaration of a list or set of scalars is not a field. -/
def Schema.declared (addr : Option String) : Schema → List (Option String × SchemaAttrs)
  | Schema.scalar a => [(addr, a)]
  | Schema.elemSchema a _ => [(addr, a)]
  | Schema.elemResource a fs => (addr, a) :: fieldsDeclared (childBase a addr) fs
/-- Every field declared in a `Schema` map or below it; `base` is what the
address of each entry starts with. -/
def fieldsDeclared (base : Option String) : List (String × Schema) → List (Option String × SchemaAttrs)
  | [] => []
  | (k, s) :: rest => s.declared (base.map (fun b => b ++ k)) ++ fieldsDeclared base rest
end

/-- Every field declared by the version 0 schema, with its address. -/
def declaredFields : List (Option String × SchemaAttrs) :=
  fieldsDeclared (some "") ResourceApplicationInstanceResourceV0

/-! ## Nesting depth -/

mutual
/-- Number of levels of the longest chain that starts at a schema literal: the
literal itself, then the deepest of what its `Elem` declares. -/
def Schema.depth : Schema → Nat
  | Schema.scalar _ => 1
  | Schema.elemSchema _ e => 1 + e.depth
  | Schema.elemResource _ fs => 1 + fieldsDepth fs
/-- Number of levels of the longest chain that starts in a `Schema` map. -/
def fieldsDepth : List (String × Schema) → Nat
  | [] => 0
  | (_, s) :: rest => max s.depth (fieldsDepth rest)
end

mutual
/-- The chains that start below a schema literal, each as the names of its
levels; the element declaration of a list or set of scalars has no name in the
source and is written `Elem`. The empty chain stops at the literal itself. -/
def Schema.chains : Schema → List (List String)
  | Schema.scalar _ => [[]]
  | Schema.elemSchema _ e => [] :: e.chains.map (fun c => "Elem" :: c)
  | Schema.elemResource _ fs => [] :: fieldsChains fs
/-- The chains that start in a `Schema` map. -/
def fieldsChains : List (String × Schema) → List (List String)
  | [] => []
  | (k, s) :: rest => s.chains.map (fun c => k :: c) ++ fieldsChains rest
end

/-- The field `k` of the nested block that a schema literal declares. -/
def Schema.child (k : String) : Schema → Option Schema
  | Schema.elemResource _ fs => fs.lookup k
  | _ => none

/-- The element declaration of a list or set of scalars. -/
def Schema.elem : Schema → Option Schema
  | Schema.elemSchema _ e => some e
  | _ => none

end Migrations

namespace Migrations

/-! ## The upgrade function, key by key -/

theorem index2_eq (m : RawState) (k : String) :
    RawState.index2 m k = ((m.lookup k).getD Value.null, (m.lookup k).isSome) := by
  unfold RawState.index2
  cases m.lookup k <;> rfl

theorem index_eq (m : RawState) (k : String) :
    RawState.index m k = (m.lookup k).getD Value.null := by
  simp [RawState.index, index2_eq]

theorem isNil_eq_false {v : Value} (h : v ≠ Value.null) : v.isNil = false := by
  cases v <;> first | rfl | exact absurd rfl h

/-- A call panics, leaving the map as it was, when `group_membership_claims`
does not hold a string. -/
theorem upgrade_not_string (m : RawState)
    (h : ∀ s, m.lookup "group_membership_claims" ≠ some (Value.str s)) :
    ResourceApplicationInstanceStateUpgradeV0 m = { outcome := Outcome.panicked, rawState := m } := by
  unfold ResourceApplicationInstanceStateUpgradeV0
  have h1 : (RawState.index m "group_membership_claims").assertString = none := by
    rw [index_eq]
    cases hl : m.lookup "group_membership_claims" with
    | none => rfl
    | some v =>
      cases v with
      | str s => exact absurd hl (h s)
      | _ => rfl
  rw [h1]

/-- A call returns, with a nil error and the map it was given, when
`group_membership_claims` holds a string; the content of that map is given key
by key. -/
theorem upgrade_string (m : RawState) (s : String)
    (h : m.lookup "group_membership_claims" = some (Value.str s)) :
    ∃ out : RawState,
      ResourceApplicationInstanceStateUpgradeV0 m
        = { outcome := Outcome.returned out none, rawState := out } ∧
      out.lookup "public_client" = none ∧
      (∀ v, m.lookup "fallback_public_client_enabled" = some v → v ≠ Value.null →
        out.lookup "fallback_public_client_enabled" = some v) ∧
      (m.lookup "fallback_public_client_enabled" = none ∨
          m.lookup "fallback_public_client_enabled" = some Value.null →
        out.lookup "fallback_public_client_enabled"
          = some ((m.lookup "public_client").getD Value.null)) ∧
      out.lookup "group_membership_claims" = some (Value.strs [s]) ∧
      ∀ k, k ≠ "public_client" → k ≠ "fallback_public_client_enabled" →
        k ≠ "group_membership_claims" → out.lookup k = m.lookup k := by
  have h1 : (RawState.index m "group_membership_claims").assertString = some s := by
    rw [index_eq, h]; rfl
  unfold ResourceApplicationInstanceStateUpgradeV0
  rw [h1]
  refine ⟨_, rfl, ?_, ?_, ?_, ?_, ?_⟩
  · simp
  · intro v hf hv
    simp [index2_eq, index_eq, Finmap.lookup_insert_of_ne, hf, isNil_eq_false hv]
  · intro hf
    rcases hf with hf | hf <;>
      simp [index2_eq, index_eq, Finmap.lookup_insert_of_ne, hf, Value.isNil]
  · simp only [index2_eq, index_eq]
    split <;> simp [Finmap.lookup_insert_of_ne]
  · intro k hk1 hk2 hk3
    simp only [index2_eq, index_eq]
    split <;> simp [Finmap.lookup_insert_of_ne, Finmap.lookup_erase_ne, hk1, hk2, hk3]

/-- The output of a call, when `group_membership_claims` holds a string. -/
theorem output_string (m : RawState) (s : String)
    (h : m.lookup "group_membership_claims" = some (Value.str s)) :
    ∃ out : RawState,
      (ResourceApplicationInstanceStateUpgradeV0 m).output = some out ∧
      (ResourceApplicationInstanceStateUpgradeV0 m).rawState = out ∧
      out.lookup "public_client" = none ∧
      (∀ v, m.lookup "fallback_public_client_enabled" = some v → v ≠ Value.null →
        out.lookup "fallback_public_client_enabled" = some v) ∧
      (m.lookup "fallback_public_client_enabled" = none ∨
          m.lookup "fallback_public_client_enabled" = some Value.null →
        out.lookup "fallback_public_client_enabled"
          = some ((m.lookup "public_client").getD Value.null)) ∧
      out.lookup "group_membership_claims" = some (Value.strs [s]) ∧
      ∀ k, k ≠ "public_client" → k ≠ "fallback_public_client_enabled" →
        k ≠ "group_membership_claims" → out.lookup k = m.lookup k := by
  obtain ⟨out, hrun, hrest⟩ := upgrade_string m s h
  exact ⟨out, by rw [hrun]; rfl, by rw [hrun], hrest⟩

/-- A call has no output when `group_membership_claims` does not hold a
string. -/
theorem output_not_string (m : RawState)
    (h : ∀ s, m.lookup "group_membership_claims" ≠ some (Value.str s)) :
    (ResourceApplicationInstanceStateUpgradeV0 m).output = none := by
  rw [upgrade_not_string m h]; rfl

/-- A call that has an output was given a string under
`group_membership_claims`. -/
theorem string_of_output (m out : RawState)
    (h : (ResourceApplicationInstanceStateUpgradeV0 m).output = some out) :
    ∃ s, m.lookup "group_membership_claims" = some (Value.str s) := by
  by_contra hne
  push_neg at hne
  rw [output_not_string m hne] at h
  exact Option.noConfusion h

/-- The top-level keys that the schema marks `Deprecated`, listed. -/
theorem deprecatedKeys_eq :
    deprecatedKeys =
      ["name", "available_to_other_tenants", "group_membership_claims", "homepage",
        "logout_url", "oauth2_allow_implicit_flow", "oauth2_permissions", "public_client",
        "reply_urls", "type"] := by
  decide

/-- The schema declares `group_membership_claims` as an optional string. -/
theorem group_membership_claims_optional :
    (ResourceApplicationInstanceResourceV0.lookup "group_membership_claims").map
        (fun f => (f.attrs.Type_, f.attrs.Optional, f.attrs.Required))
      = some (ValueType.TypeString, true, false) := by
  decide

/-! ## The wrap rule -/

/-- C1: for every record whose `group_membership_claims` value is a string `s`,
whatever the string, the upgrade succeeds and its output maps
`group_membership_claims` to the one-element sequence `[s]`. -/
theorem wrap_string_to_sequence (m : RawState) (s : String)
    (h : m.lookup "group_membership_claims" = some (Value.str s)) :
    ∃ out : RawState,
      (ResourceApplicationInstanceStateUpgradeV0 m).output = some out ∧
      out.lookup "group_membership_claims" = some (Value.strs [s]) := by
  obtain ⟨out, ho, _, _, _, _, hg, _⟩ := output_string m s h
  exact ⟨out, ho, hg⟩

/-- Scenario A, and a string outside the set the schema allows. -/
theorem wrap_string_to_sequence_witness :
    (record [("group_membership_claims", Value.str "All")]).lookup "group_membership_claims"
        = some (Value.str "All") ∧
    ∃ out : RawState,
      (ResourceApplicationInstanceStateUpgradeV0
        (record [("group_membership_claims", Value.str "All")])).output = some out ∧
      out.lookup "group_membership_claims" = some (Value.strs ["All"]) :=
  ⟨rfl, wrap_string_to_sequence (record [("group_membership_claims", Value.str "All")]) "All" rfl⟩

/-- C2: on the record `{"public_client": true}`, which has no
`group_membership_claims` key, the call panics at the type assertion: it has no
output, so no `fallback_public_client_enabled` is written, and the map is left
as it was, `public_client` included. -/
theorem absent_group_membership_claims_panics :
    (ResourceApplicationInstanceStateUpgradeV0
        (record [("public_client", Value.bool true)])).outcome = Outcome.panicked ∧
    (ResourceApplicationInstanceStateUpgradeV0
        (record [("public_client", Value.bool true)])).output = none ∧
    (ResourceApplicationInstanceStateUpgradeV0
        (record [("public_client", Value.bool true)])).rawState.lookup
          "fallback_public_client_enabled" = none ∧
    (ResourceApplicationInstanceStateUpgradeV0
        (record [("public_client", Value.bool true)])).rawState.lookup "public_client"
          = some (Value.bool true) :=
  ⟨rfl, rfl, rfl, rfl⟩

/-! ## The rename rule -/

/-- C3: when `group_membership_claims` is a string and both `public_client`
(value `p`) and `fallback_public_client_enabled` (value `v`, not nil) are
present, the output maps `fallback_public_client_enabled` to `v`, and so not to
`p` when the two differ. -/
theorem new_value_precedence (m : RawState) (s : String) (p v : Value)
    (hg : m.lookup "group_membership_claims" = some (Value.str s))
    (hp : m.lookup "public_client" = some p)
    (hf : m.lookup "fallback_public_client_enabled" = some v)
    (hv : v ≠ Value.null) :
    ∃ out : RawState,
      (ResourceApplicationInstanceStateUpgradeV0 m).output = some out ∧
      out.lookup "fallback_public_client_enabled" = some v ∧
      (p ≠ v → out.lookup "fallback_public_client_enabled" ≠ m.lookup "public_client") := by
  obtain ⟨out, ho, _, _, hkeep, _, _, _⟩ := output_string m s hg
  refine ⟨out, ho, hkeep v hf hv, ?_⟩
  intro hne heq
  rw [hkeep v hf hv, hp] at heq
  exact hne (Option.some.inj heq).symm

/-- Scenario C, with the string that the upgrade needs. -/
theorem new_value_precedence_witness :
    ((record [("group_membership_claims", Value.str "All"), ("public_client", Value.bool true),
        ("fallback_public_client_enabled", Value.bool false)]).lookup "group_membership_claims"
          = some (Value.str "All") ∧
      (record [("group_membership_claims", Value.str "All"), ("public_client", Value.bool true),
        ("fallback_public_client_enabled", Value.bool false)]).lookup "public_client"
          = some (Value.bool true) ∧
      (record [("group_membership_claims", Value.str "All"), ("public_client", Value.bool true),
        ("fallback_public_client_enabled", Value.bool false)]).lookup
          "fallback_public_client_enabled" = some (Value.bool false) ∧
      Value.bool false ≠ Value.null) ∧
    ∃ out : RawState,
      (ResourceApplicationInstanceStateUpgradeV0
        (record [("group_membership_claims", Value.str "All"), ("public_client", Value.bool true),
          ("fallback_public_client_enabled", Value.bool false)])).output = some out ∧
      out.lookup "fallback_public_client_enabled" = some (Value.bool false) ∧
      (Value.bool true ≠ Value.bool false →
        out.lookup "fallback_public_client_enabled"
          ≠ (record [("group_membership_claims", Value.str "All"),
              ("public_client", Value.bool true),
              ("fallback_public_client_enabled", Value.bool false)]).lookup "public_client") :=
  ⟨⟨rfl, rfl, rfl, Value.noConfusion⟩,
    new_value_precedence
      (record [("group_membership_claims", Value.str "All"), ("public_client", Value.bool true),
        ("fallback_public_client_enabled", Value.bool false)])
      "All" (Value.bool true) (Value.bool false) rfl rfl rfl Value.noConfusion⟩

/-- C4: when `group_membership_claims` is a string,
`fallback_public_client_enabled` is absent or nil and `public_client` is
present with value `v`, the output maps `fallback_public_client_enabled` to
`v`. -/
theorem old_value_copied (m : RawState) (s : String) (v : Value)
    (hg : m.lookup "group_membership_claims" = some (Value.str s))
    (hf : m.lookup "fallback_public_client_enabled" = none ∨
      m.lookup "fallback_public_client_enabled" = some Value.null)
    (hp : m.lookup "public_client" = some v) :
    ∃ out : RawState,
      (ResourceApplicationInstanceStateUpgradeV0 m).output = some out ∧
      out.lookup "fallback_public_client_enabled" = some v := by
  obtain ⟨out, ho, _, _, _, hcopy, _, _⟩ := output_string m s hg
  refine ⟨out, ho, ?_⟩
  rw [hcopy hf, hp]
  rfl

/-- Scenario B with the string that the upgrade needs, the new key being
present and nil. -/
theorem old_value_copied_witness :
    ((record [("group_membership_claims", Value.str "All"), ("public_client", Value.bool true),
        ("fallback_public_client_enabled", Value.null)]).lookup "group_membership_claims"
          = some (Value.str "All") ∧
      ((record [("group_membership_claims", Value.str "All"), ("public_client", Value.bool true),
          ("fallback_public_client_enabled", Value.null)]).lookup
            "fallback_public_client_enabled" = none ∨
        (record [("group_membership_claims", Value.str "All"), ("public_client", Value.bool true),
          ("fallback_public_client_enabled", Value.null)]).lookup
            "fallback_public_client_enabled" = some Value.null) ∧
      (record [("group_membership_claims", Value.str "All"), ("public_client", Value.bool true),
        ("fallback_public_client_enabled", Value.null)]).lookup "public_client"
          = some (Value.bool true)) ∧
    ∃ out : RawState,
      (ResourceApplicationInstanceStateUpgradeV0
        (record [("group_membership_claims", Value.str "All"), ("public_client", Value.bool true),
          ("fallback_public_client_enabled", Value.null)])).output = some out ∧
      out.lookup "fallback_public_client_enabled" = some (Value.bool true) :=
  ⟨⟨rfl, Or.inr rfl, rfl⟩,
    old_value_copied
      (record [("group_membership_claims", Value.str "All"), ("public_client", Value.bool true),
        ("fallback_public_client_enabled", Value.null)])
      "All" (Value.bool true) rfl (Or.inr rfl) rfl⟩

/-- C5: the output of every call that succeeds has no `public_client` key. -/
theorem old_key_removed (m out : RawState)
    (h : (ResourceApplicationInstanceStateUpgradeV0 m).output = some out) :
    out.lookup "public_client" = none ∧ "public_client" ∉ out := by
  obtain ⟨s, hg⟩ := string_of_output m out h
  obtain ⟨out1, ho, _, hpc, _⟩ := output_string m s hg
  rw [h] at ho
  obtain rfl := Option.some.inj ho
  exact ⟨hpc, Finmap.lookup_eq_none.mp hpc⟩

/-- A record with `public_client` set and no `fallback_public_client_enabled`:
the old key is gone from the output. -/
theorem old_key_removed_witness :
    (ResourceApplicationInstanceStateUpgradeV0
        (record [("group_membership_claims", Value.str "All"),
          ("public_client", Value.bool true)])).output
      = some (ResourceApplicationInstanceStateUpgradeV0
          (record [("group_membership_claims", Value.str "All"),
            ("public_client", Value.bool true)])).rawState ∧
    (ResourceApplicationInstanceStateUpgradeV0
        (record [("group_membership_claims", Value.str "All"),
          ("public_client", Value.bool true)])).rawState.lookup "public_client" = none ∧
    "public_client" ∉
      (ResourceApplicationInstanceStateUpgradeV0
        (record [("group_membership_claims", Value.str "All"),
          ("public_client", Value.bool true)])).rawState :=
  ⟨rfl,
    old_key_removed
      (record [("group_membership_claims", Value.str "All"), ("public_client", Value.bool true)])
      _ rfl⟩

/-! ## Deprecated keys and untouched keys -/

/-- C6, as stated, fails: `name` is a top-level key that the schema marks
`Deprecated` (renamed to `display_name`), and the output of the upgrade on
`{"group_membership_claims": "All", "name": "app"}` still holds it. -/
theorem deprecated_key_left_in_output :
    "name" ∈ deprecatedKeys ∧
    ∃ out : RawState,
      (ResourceApplicationInstanceStateUpgradeV0
        (record [("group_membership_claims", Value.str "All"),
          ("name", Value.str "app")])).output = some out ∧
      out.lookup "name" = some (Value.str "app") :=
  ⟨by decide, _, rfl, rfl⟩

/-- C6, amended: the output of every call that succeeds has no `public_client`
key, and every other top-level key that the schema marks `Deprecated`, apart
from `group_membership_claims`, is in the output exactly when it is in the
input, with the same value. -/
theorem deprecated_keys_in_output (m out : RawState)
    (h : (ResourceApplicationInstanceStateUpgradeV0 m).output = some out) :
    out.lookup "public_client" = none ∧
    ∀ k ∈ deprecatedKeys, k ≠ "public_client" → k ≠ "group_membership_claims" →
      out.lookup k = m.lookup k := by
  obtain ⟨s, hg⟩ := string_of_output m out h
  obtain ⟨out1, ho, _, hpc, _, _, _, hframe⟩ := output_string m s hg
  rw [h] at ho
  obtain rfl := Option.some.inj ho
  refine ⟨hpc, ?_⟩
  intro k hk hk1 hk2
  refine hframe k hk1 ?_ hk2
  intro hk3
  rw [hk3] at hk
  revert hk
  decide

/-- A record holding two deprecated keys: `public_client` is dropped and
`homepage` is carried over. -/
theorem deprecated_keys_in_output_witness :
    (ResourceApplicationInstanceStateUpgradeV0
        (record [("group_membership_claims", Value.str "None"),
          ("public_client", Value.bool false),
          ("homepage", Value.str "https://example.com")])).output
      = some (ResourceApplicationInstanceStateUpgradeV0
          (record [("group_membership_claims", Value.str "None"),
            ("public_client", Value.bool false),
            ("homepage", Value.str "https://example.com")])).rawState ∧
    (ResourceApplicationInstanceStateUpgradeV0
        (record [("group_membership_claims", Value.str "None"),
          ("public_client", Value.bool false),
          ("homepage", Value.str "https://example.com")])).rawState.lookup "public_client"
      = none ∧
    ∀ k ∈ deprecatedKeys, k ≠ "public_client" → k ≠ "group_membership_claims" →
      (ResourceApplicationInstanceStateUpgradeV0
          (record [("group_membership_claims", Value.str "None"),
            ("public_client", Value.bool false),
            ("homepage", Value.str "https://example.com")])).rawState.lookup k
        = (record [("group_membership_claims", Value.str "None"),
            ("public_client", Value.bool false),
            ("homepage", Value.str "https://example.com")]).lookup k :=
  ⟨rfl,
    deprecated_keys_in_output
      (record [("group_membership_claims", Value.str "None"),
        ("public_client", Value.bool false), ("homepage", Value.str "https://example.com")])
      _ rfl⟩

/-- C7: for every call that succeeds and every key `k` other than
`group_membership_claims`, `public_client` and
`fallback_public_client_enabled`, the output holds under `k` what the input
held: `k` is present in the one exactly when it is in the other, with the same
value. -/
theorem other_keys_unchanged (m out : RawState) (k : String)
    (h : (ResourceApplicationInstanceStateUpgradeV0 m).output = some out)
    (hk1 : k ≠ "group_membership_claims") (hk2 : k ≠ "public_client")
    (hk3 : k ≠ "fallback_public_client_enabled") :
    out.lookup k = m.lookup k ∧ (k ∈ out ↔ k ∈ m) := by
  obtain ⟨s, hg⟩ := string_of_output m out h
  obtain ⟨out1, ho, _, _, _, _, _, hframe⟩ := output_string m s hg
  rw [h] at ho
  obtain rfl := Option.some.inj ho
  have hl := hframe k hk2 hk3 hk1
  refine ⟨hl, ?_⟩
  rw [Finmap.mem_iff, Finmap.mem_iff, hl]

/-- A list-valued field is carried over as it is. -/
theorem other_keys_unchanged_witness :
    ((ResourceApplicationInstanceStateUpgradeV0
        (record [("group_membership_claims", Value.str "All"),
          ("identifier_uris", Value.list [Value.str "api://app"])])).output
      = some (ResourceApplicationInstanceStateUpgradeV0
          (record [("group_membership_claims", Value.str "All"),
            ("identifier_uris", Value.list [Value.str "api://app"])])).rawState ∧
      "identifier_uris" ≠ "group_membership_claims" ∧ "identifier_uris" ≠ "public_client" ∧
      "identifier_uris" ≠ "fallback_public_client_enabled") ∧
    (ResourceApplicationInstanceStateUpgradeV0
        (record [("group_membership_claims", Value.str "All"),
          ("identifier_uris", Value.list [Value.str "api://app"])])).rawState.lookup
        "identifier_uris"
      = (record [("group_membership_claims", Value.str "All"),
          ("identifier_uris", Value.list [Value.str "api://app"])]).lookup "identifier_uris" ∧
    ("identifier_uris" ∈
        (ResourceApplicationInstanceStateUpgradeV0
          (record [("group_membership_claims", Value.str "All"),
            ("identifier_uris", Value.list [Value.str "api://app"])])).rawState ↔
      "identifier_uris" ∈
        record [("group_membership_claims", Value.str "All"),
          ("identifier_uris", Value.list [Value.str "api://app"])]) :=
  ⟨⟨rfl, by decide, by decide, by decide⟩,
    other_keys_unchanged
      (record [("group_membership_claims", Value.str "All"),
        ("identifier_uris", Value.list [Value.str "api://app"])])
      _ "identifier_uris" rfl (by decide) (by decide) (by decide)⟩

/-! ## Failure -/

/-- C8: whenever a call fails (it does not return with a nil error), the
caller's map after the call is the map before the call, so it holds the same
value, or none, under every key. -/
theorem failure_leaves_record_unchanged (m : RawState)
    (h : (ResourceApplicationInstanceStateUpgradeV0 m).output = none) :
    (ResourceApplicationInstanceStateUpgradeV0 m).rawState = m ∧
    ∀ k, (ResourceApplicationInstanceStateUpgradeV0 m).rawState.lookup k = m.lookup k := by
  have hne : ∀ s, m.lookup "group_membership_claims" ≠ some (Value.str s) := by
    intro s hs
    obtain ⟨out, ho, _⟩ := output_string m s hs
    rw [h] at ho
    exact Option.noConfusion ho
  have hrun := upgrade_not_string m hne
  have hst : (ResourceApplicationInstanceStateUpgradeV0 m).rawState = m := by rw [hrun]
  exact ⟨hst, fun k => by rw [hst]⟩

/-- A record whose `group_membership_claims` is already a list: the call fails
and the record keeps its three entries. -/
theorem failure_leaves_record_unchanged_witness :
    (ResourceApplicationInstanceStateUpgradeV0
        (record [("group_membership_claims", Value.list [Value.str "All"]),
          ("public_client", Value.bool true),
          ("fallback_public_client_enabled", Value.null)])).output = none ∧
    (ResourceApplicationInstanceStateUpgradeV0
        (record [("group_membership_claims", Value.list [Value.str "All"]),
          ("public_client", Value.bool true),
          ("fallback_public_client_enabled", Value.null)])).rawState
      = record [("group_membership_claims", Value.list [Value.str "All"]),
          ("public_client", Value.bool true),
          ("fallback_public_client_enabled", Value.null)] ∧
    ∀ k,
      (ResourceApplicationInstanceStateUpgradeV0
          (record [("group_membership_claims", Value.list [Value.str "All"]),
            ("public_client", Value.bool true),
            ("fallback_public_client_enabled", Value.null)])).rawState.lookup k
        = (record [("group_membership_claims", Value.list [Value.str "All"]),
            ("public_client", Value.bool true),
            ("fallback_public_client_enabled", Value.null)]).lookup k :=
  ⟨rfl,
    failure_leaves_record_unchanged
      (record [("group_membership_claims", Value.list [Value.str "All"]),
        ("public_client", Value.bool true), ("fallback_public_client_enabled", Value.null)])
      rfl⟩

/-- C9: a call returns exactly when the input maps `group_membership_claims`
to a string; the error it returns is always nil; and on every other input (key
absent, nil, or a value of another type) it panics at the type assertion, before
any write to the map, and returns nothing. -/
theorem returns_iff_string (m : RawState) :
    ((∃ out err, (ResourceApplicationInstanceStateUpgradeV0 m).outcome = Outcome.returned out err)
      ↔ ∃ s, m.lookup "group_membership_claims" = some (Value.str s)) ∧
    (∀ out err, (ResourceApplicationInstanceStateUpgradeV0 m).outcome = Outcome.returned out err →
      err = none) ∧
    ((¬ ∃ s, m.lookup "group_membership_claims" = some (Value.str s)) →
      (ResourceApplicationInstanceStateUpgradeV0 m).outcome = Outcome.panicked ∧
      (ResourceApplicationInstanceStateUpgradeV0 m).rawState = m) := by
  by_cases hs : ∃ s, m.lookup "group_membership_claims" = some (Value.str s)
  · obtain ⟨s, hg⟩ := hs
    obtain ⟨out, hrun, _⟩ := upgrade_string m s hg
    refine ⟨⟨fun _ => ⟨s, hg⟩, fun _ => ⟨out, none, by rw [hrun]⟩⟩, ?_, ?_⟩
    · intro out1 err h
      rw [hrun] at h
      injection h with _ herr
      exact herr.symm
    · intro hne
      exact absurd ⟨s, hg⟩ hne
  · have hne : ∀ s, m.lookup "group_membership_claims" ≠ some (Value.str s) :=
      fun s h => hs ⟨s, h⟩
    have hrun := upgrade_not_string m hne
    refine ⟨⟨?_, fun h => absurd h hs⟩, ?_, ?_⟩
    · rintro ⟨out, err, h⟩
      rw [hrun] at h
      exact Outcome.noConfusion h
    · intro out err h
      rw [hrun] at h
      exact Outcome.noConfusion h
    · intro _
      rw [hrun]
      exact ⟨rfl, rfl⟩

/-- C10: when `group_membership_claims` is a string and the record holds
neither `public_client` nor `fallback_public_client_enabled`, the output holds
the key `fallback_public_client_enabled`, mapped to nil. -/
theorem absent_rename_injects_null (m : RawState) (s : String)
    (hg : m.lookup "group_membership_claims" = some (Value.str s))
    (hp : m.lookup "public_client" = none)
    (hf : m.lookup "fallback_public_client_enabled" = none) :
    ∃ out : RawState,
      (ResourceApplicationInstanceStateUpgradeV0 m).output = some out ∧
      "fallback_public_client_enabled" ∈ out ∧
      out.lookup "fallback_public_client_enabled" = some Value.null := by
  obtain ⟨out, ho, _, _, _, hcopy, _, _⟩ := output_string m s hg
  have hl : out.lookup "fallback_public_client_enabled" = some Value.null := by
    rw [hcopy (Or.inl hf), hp]
    rfl
  refine ⟨out, ho, ?_, hl⟩
  rw [Finmap.mem_iff]
  exact ⟨_, hl⟩

/-- Scenario A: the output gains a nil `fallback_public_client_enabled`. -/
theorem absent_rename_injects_null_witness :
    ((record [("group_membership_claims", Value.str "All")]).lookup "group_membership_claims"
        = some (Value.str "All") ∧
      (record [("group_membership_claims", Value.str "All")]).lookup "public_client" = none ∧
      (record [("group_membership_claims", Value.str "All")]).lookup
        "fallback_public_client_enabled" = none) ∧
    ∃ out : RawState,
      (ResourceApplicationInstanceStateUpgradeV0
        (record [("group_membership_claims", Value.str "All")])).output = some out ∧
      "fallback_public_client_enabled" ∈ out ∧
      out.lookup "fallback_public_client_enabled" = some Value.null :=
  ⟨⟨rfl, rfl, rfl⟩,
    absent_rename_injects_null (record [("group_membership_claims", Value.str "All")]) "All"
      rfl rfl rfl⟩

/-! ## Applying the upgrade twice, and the order of its two rules -/

/-- C11: the upgrade is never applicable to its own output. For every record on
which it succeeds, the returned record holds a `[]string` and no string under
`group_membership_claims`, and a second call on it panics: it has no output. -/
theorem upgrade_fails_on_own_output (m out : RawState)
    (h : (ResourceApplicationInstanceStateUpgradeV0 m).output = some out) :
    (∃ s, out.lookup "group_membership_claims" = some (Value.strs [s])) ∧
    (ResourceApplicationInstanceStateUpgradeV0 out).outcome = Outcome.panicked ∧
    (ResourceApplicationInstanceStateUpgradeV0 out).output = none := by
  obtain ⟨s, hg⟩ := string_of_output m out h
  obtain ⟨out1, ho, _, _, _, _, hwrap, _⟩ := output_string m s hg
  rw [h] at ho
  obtain rfl := Option.some.inj ho
  have hne : ∀ t, out.lookup "group_membership_claims" ≠ some (Value.str t) := by
    intro t ht
    rw [hwrap] at ht
    exact Value.noConfusion (Option.some.inj ht)
  refine ⟨⟨s, hwrap⟩, ?_, output_not_string out hne⟩
  rw [upgrade_not_string out hne]

/-- Scenario A, upgraded twice. -/
theorem upgrade_fails_on_own_output_witness :
    (ResourceApplicationInstanceStateUpgradeV0
        (record [("group_membership_claims", Value.str "All")])).output
      = some (ResourceApplicationInstanceStateUpgradeV0
          (record [("group_membership_claims", Value.str "All")])).rawState ∧
    (∃ s,
      (ResourceApplicationInstanceStateUpgradeV0
          (record [("group_membership_claims", Value.str "All")])).rawState.lookup
        "group_membership_claims" = some (Value.strs [s])) ∧
    (ResourceApplicationInstanceStateUpgradeV0
        (ResourceApplicationInstanceStateUpgradeV0
          (record [("group_membership_claims", Value.str "All")])).rawState).outcome
      = Outcome.panicked ∧
    (ResourceApplicationInstanceStateUpgradeV0
        (ResourceApplicationInstanceStateUpgradeV0
          (record [("group_membership_claims", Value.str "All")])).rawState).output = none :=
  ⟨rfl,
    upgrade_fails_on_own_output (record [("group_membership_claims", Value.str "All")]) _ rfl⟩

/-- The rename-and-delete rule leaves every key other than its two as it
was. -/
theorem renameRule_lookup_of_ne (m : RawState) (k : String)
    (hk1 : k ≠ "public_client") (hk2 : k ≠ "fallback_public_client_enabled") :
    (renameRule m).lookup k = m.lookup k := by
  unfold renameRule
  simp only [index2_eq, index_eq]
  split <;> simp [Finmap.lookup_insert_of_ne, Finmap.lookup_erase_ne, hk1, hk2]

/-- The rename-and-delete rule does not read `group_membership_claims`: a
write to that key can be moved across it. -/
theorem renameRule_insert_group_membership_claims (m : RawState) (v : Value) :
    renameRule (m.insert "group_membership_claims" v)
      = (renameRule m).insert "group_membership_claims" v := by
  apply Finmap.ext_lookup
  intro k
  by_cases hk3 : k = "group_membership_claims"
  · subst hk3
    rw [renameRule_lookup_of_ne _ _ (by decide) (by decide)]
    simp
  · by_cases hk1 : k = "public_client"
    · subst hk1
      simp [renameRule]
    · by_cases hk2 : k = "fallback_public_client_enabled"
      · subst hk2
        unfold renameRule
        simp only [index2_eq, index_eq]
        cases hf : m.lookup "fallback_public_client_enabled" with
        | none => simp [Finmap.lookup_insert_of_ne, hf]
        | some w => cases w <;> simp [Finmap.lookup_insert_of_ne, hf, Value.isNil]
      · rw [renameRule_lookup_of_ne _ _ hk1 hk2, Finmap.lookup_insert_of_ne _ hk3,
          Finmap.lookup_insert_of_ne _ hk3, renameRule_lookup_of_ne _ _ hk1 hk2]

/-- The upgrade function is its two rules in the order of the source. -/
theorem output_eq_wrapThenRename (m : RawState) :
    (ResourceApplicationInstanceStateUpgradeV0 m).output = wrapThenRename m := by
  unfold ResourceApplicationInstanceStateUpgradeV0 wrapThenRename wrapRule
  cases (RawState.index m "group_membership_claims").assertString <;> rfl

/-- C12: the wrap rule and the rename-and-delete rule are independent. On every
record, wrap-then-rename and rename-then-wrap either both fail or both succeed
with the same record; the first of the two is what the upgrade function
computes. -/
theorem rules_commute (m : RawState) :
    wrapThenRename m = renameThenWrap m ∧
    ((wrapThenRename m).isSome ↔ (renameThenWrap m).isSome) ∧
    (ResourceApplicationInstanceStateUpgradeV0 m).output = wrapThenRename m := by
  have hgmc : RawState.index (renameRule m) "group_membership_claims"
      = RawState.index m "group_membership_claims" := by
    rw [index_eq, index_eq, renameRule_lookup_of_ne _ _ (by decide) (by decide)]
  have hcomm : wrapThenRename m = renameThenWrap m := by
    unfold wrapThenRename renameThenWrap wrapRule
    rw [hgmc]
    cases (RawState.index m "group_membership_claims").assertString with
    | none => rfl
    | some s =>
      simp only [Option.map_some']
      rw [renameRule_insert_group_membership_claims]
  exact ⟨hcomm, by rw [hcomm], output_eq_wrapThenRename m⟩

/-! ## The version 0 schema: `ConflictsWith` and nesting depth -/

set_option maxRecDepth 1000000

/-- The declared fields that have a `ConflictsWith`, each with its address and
the paths it lists. -/
theorem declaredFields_conflictsWith :
    (declaredFields.filter (fun f => f.2.ConflictsWith ≠ [])).map
        (fun f => (f.1, f.2.ConflictsWith))
      = [(some "available_to_other_tenants", ["sign_in_audience"]),
          (some "fallback_public_client_enabled", ["public_client"]),
          (some "homepage", ["web.0.homepage_url"]),
          (some "logout_url", ["web.0.logout_url"]),
          (some "oauth2_allow_implicit_flow",
            ["web.0.implicit_grant.0.access_token_issuance_enabled"]),
          (some "public_client", ["fallback_public_client_enabled"]),
          (some "reply_urls", ["web.0.redirect_uris"]),
          (some "sign_in_audience", ["available_to_other_tenants"]),
          (some "web.0.homepage_url", ["homepage"]),
          (some "web.0.logout_url", ["logout_url"]),
          (some "web.0.redirect_uris", ["reply_urls"]),
          (some "web.0.implicit_grant.0.access_token_issuance_enabled",
            ["oauth2_allow_implicit_flow"])] := by
  decide

/-- C13: in the version 0 schema `ConflictsWith` is symmetric. Every path `q`
listed in the `ConflictsWith` of a declared field is the address of a field
declared in the schema (list blocks entered through index `0`), and the
`ConflictsWith` of the field at that address lists the address of the first
field. -/
theorem conflictsWith_symmetric :
    ∀ f ∈ declaredFields, ∀ q ∈ f.2.ConflictsWith,
      (∃ g ∈ declaredFields, g.1 = some q) ∧
      ∀ g ∈ declaredFields, g.1 = some q → ∃ p ∈ f.1, p ∈ g.2.ConflictsWith := by
  decide

/-- The field `homepage_url` of the `web` block conflicts with the top-level
`homepage`, which lists `web.0.homepage_url` in turn. -/
theorem conflictsWith_symmetric_witness :
    ((some "web.0.homepage_url",
        ({ Type_ := ValueType.TypeString, Optional := true, ConflictsWith := ["homepage"] } :
          SchemaAttrs)) ∈ declaredFields ∧
      "homepage" ∈ ["homepage"]) ∧
    (∃ g ∈ declaredFields, g.1 = some "homepage") ∧
    ∀ g ∈ declaredFields, g.1 = some "homepage" →
      ∃ p ∈ some "web.0.homepage_url", p ∈ g.2.ConflictsWith :=
  ⟨⟨by decide, by decide⟩,
    conflictsWith_symmetric
      (some "web.0.homepage_url",
        { Type_ := ValueType.TypeString, Optional := true, ConflictsWith := ["homepage"] })
      (by decide) "homepage" (by decide)⟩

/-- C14: the nesting depth of the version 0 schema is exactly 4. Its longest
chain has 4 levels, no chain has more, and the chains of 4 levels are the two
that go from `optional_claims` through `access_token` or `id_token` and
`additional_properties` to the element declaration, which is a string. -/
theorem nesting_depth_eq_four :
    fieldsDepth ResourceApplicationInstanceResourceV0 = 4 ∧
    (∀ c ∈ fieldsChains ResourceApplicationInstanceResourceV0, c.length ≤ 4) ∧
    (fieldsChains ResourceApplicationInstanceResourceV0).filter (fun c => 4 ≤ c.length)
      = [["optional_claims", "access_token", "additional_properties", "Elem"],
          ["optional_claims", "id_token", "additional_properties", "Elem"]] ∧
    (((((ResourceApplicationInstanceResourceV0.lookup "optional_claims").bind
        (Schema.child "access_token")).bind (Schema.child "additional_properties")).bind
        Schema.elem).map (fun e => (e.attrs.Type_, e.depth)))
      = some (ValueType.TypeString, 1) ∧
    (((((ResourceApplicationInstanceResourceV0.lookup "optional_claims").bind
        (Schema.child "id_token")).bind (Schema.child "additional_properties")).bind
        Schema.elem).map (fun e => (e.attrs.Type_, e.depth)))
      = some (ValueType.TypeString, 1) := by
  refine ⟨by decide, by decide, by decide, by decide, by decide⟩

end Migrations
